import Mathlib

/-!
# Verification of starlette-responses-kit (src/starlette_responses_kit/file.py)

Shallow embedding of the file-response classes: `BaseFileResponse`,
`FileResponse`, `BytesFileResponse`, `TextFileResponse`, `JsonFileResponse`,
and the module-level `slicer` helper.

Modelling choices:
- Byte strings are `List Nat` (each entry a byte value).
- Timestamps (`st_mtime`, `time.monotonic()`) are `Rat`; Python float
  rendering (`str(mtime)`) and `email.utils.formatdate` are external
  collaborators, kept abstract as fields of `Collab`.
- `starlette._compat.md5_hexdigest` and `mimetypes.guess_type` are external
  collaborators, abstract fields of `Collab`; `json.dumps` likewise.
- `urllib.parse.quote` (default `safe='/'`) is implemented concretely.
- The ASGI `send` channel is modelled as an event trace; `__call__` returns
  the trace of emitted events together with an optional raised error message.
- The header container (starlette `MutableHeaders` over `raw_headers`) is an
  association list with lowercase keys and append-on-absent `setdefault`.
-/

namespace SRK

/-- Byte strings: a list of byte values. -/
abbrev Bytes := List Nat

/-- Minimal JSON value type for the structured content source. -/
inductive Json where
  | null : Json
  | bool (b : Bool) : Json
  | num (n : Int) : Json
  | str (s : String) : Json
  | arr (xs : List Json) : Json
  | obj (fields : List (String × Json)) : Json

/-- Result of `os.stat`: the three fields the code reads. -/
structure StatResult where
  st_size : Nat
  st_mtime : Rat
  st_mode : Nat
deriving DecidableEq

/-- Modelled from the spec: `stat.S_ISREG(mode)` — the file-type bits
(mask `0o170000`) equal the regular-file tag `0o100000`. -/
def S_ISREG (mode : Nat) : Bool := Nat.land mode 61440 == 32768

/-- Filesystem collaborator: `stat` returns `none` for `FileNotFoundError`;
`read` gives the byte content of the file at a path. -/
structure FileSystem where
  stat : String → Option StatResult
  read : String → Bytes

/-- External collaborators the module calls into, kept abstract:
`md5_hexdigest` (starlette), `formatdate` (email.utils, usegmt=True),
Python `str` on a float timestamp, `mimetypes.guess_type` (first component),
`json.dumps`, and the clock `time.monotonic()`. -/
structure Collab where
  md5_hexdigest : String → String
  formatdate : Rat → String
  strFloat : Rat → String
  guess_type : String → Option String
  dumps : Json → String
  now : Rat

/-! ## Small Python-semantics helpers -/

/-- Python `x or d` for an optional int: falls to `d` on `None` and on `0`. -/
def pyOrNat : Option Nat → Nat → Nat
  | none, d => d
  | some n, d => if n = 0 then d else n

/-- Python `x or d` for an optional float: falls to `d` on `None` and `0.0`. -/
def pyOrRat : Option Rat → Rat → Rat
  | none, d => d
  | some q, d => if q = 0 then d else q

/-- Python `x or d` for an optional string: falls to `d` on `None` and `''`. -/
def pyOrStr : Option String → String → String
  | none, d => d
  | some s, d => if s = "" then d else s

/-- Python `str.upper()` (ASCII suffices for HTTP methods). -/
def pyUpper (s : String) : String := String.mk (s.data.map Char.toUpper)

/-- Lowercase a header key (ASCII). -/
def lowerStr (s : String) : String := String.mk (s.data.map Char.toLower)

/-- Character-list test: `pat` begins `cs`. -/
def beginsWithChars : List Char → List Char → Bool
  | [], _ => true
  | _ :: _, [] => false
  | p :: ps, c :: cs => p == c && beginsWithChars ps cs

/-- Character-list test: `pat` occurs somewhere in `cs`. -/
def hasSubChars (pat : List Char) : List Char → Bool
  | [] => beginsWithChars pat []
  | c :: cs => beginsWithChars pat (c :: cs) || hasSubChars pat cs

/-- `s.startswith(pat)` over the character lists. -/
def strBeginsWith (s pat : String) : Bool := beginsWithChars pat.data s.data

/-- Python `pat in s` (substring containment) over the character lists. -/
def strContainsSub (s pat : String) : Bool := hasSubChars pat.data s.data

/-! ## UTF-8 encoding and `urllib.parse.quote` -/

/-- UTF-8 encoding of one scalar value, as byte values. -/
def utf8EncodeChar (c : Char) : Bytes :=
  let n := c.toNat
  if n < 128 then [n]
  else if n < 2048 then [192 + n / 64, 128 + n % 64]
  else if n < 65536 then [224 + n / 4096, 128 + (n / 64) % 64, 128 + n % 64]
  else [240 + n / 262144, 128 + (n / 4096) % 64, 128 + (n / 64) % 64, 128 + n % 64]

/-- `s.encode('utf-8')`: UTF-8 bytes of a string. -/
def utf8Encode (s : String) : Bytes := (s.data.map utf8EncodeChar).flatten

/-- Bytes left unescaped by `urllib.parse.quote` with the default
`safe='/'`: ALPHA / DIGIT / `_` `.` `-` `~` and `/`. -/
def quoteSafeByte (b : Nat) : Bool :=
  (65 ≤ b && b ≤ 90) || (97 ≤ b && b ≤ 122) || (48 ≤ b && b ≤ 57) ||
    b == 95 || b == 46 || b == 45 || b == 126 || b == 47

/-- Uppercase hexadecimal digit. -/
def hexDigit (n : Nat) : Char :=
  if n < 10 then Char.ofNat (48 + n) else Char.ofNat (55 + n)

/-- Percent-encoding of one byte, or the byte itself when safe. -/
def quoteByte (b : Nat) : String :=
  if quoteSafeByte b then String.singleton (Char.ofNat b)
  else String.singleton '%' ++ String.singleton (hexDigit (b / 16)) ++
    String.singleton (hexDigit (b % 16))

/-- `urllib.parse.quote(s)`: percent-encode the UTF-8 bytes of `s`. -/
def quote (s : String) : String := String.join ((utf8Encode s).map quoteByte)

/-! ## Header container (collaborator: starlette MutableHeaders) -/

/-- Header list membership test on (lowercase) key. -/
def containsKey (hs : List (String × String)) (k : String) : Bool :=
  hs.any (fun h => h.1 == k)

/-- `MutableHeaders.setdefault`: append `(k, v)` only when `k` is absent. -/
def setdefault (hs : List (String × String)) (k v : String) :
    List (String × String) :=
  if containsKey hs k then hs else hs ++ [(k, v)]

/-- First value stored under key `k`, if any. -/
def lookupHeader (hs : List (String × String)) (k : String) : Option String :=
  (hs.find? (fun h => h.1 == k)).map (fun h => h.2)

/-- Lowercase the keys of a caller-supplied header mapping. -/
def lowerKeys (hs : List (String × String)) : List (String × String) :=
  hs.map (fun h => (lowerStr h.1, h.2))

/-- Modelled from the spec: the external collaborator
`Response.init_headers` (starlette). Caller-supplied headers keep their
values with lowercased keys; since no `body` attribute is ever set by these
classes, no content-length is added; a content-type derived from the media
type is appended when absent, with the charset appended for `text/` types
lacking a `charset=` parameter. -/
def init_headers (media_type : Option String)
    (headers : Option (List (String × String))) : List (String × String) :=
  let raw := match headers with
    | none => []
    | some hs => lowerKeys hs
  match media_type with
  | none => raw
  | some ct =>
    if containsKey raw ("content-type") then raw
    else
      let ct := if strBeginsWith ct ("text/") && !(strContainsSub ct ("charset="))
        then ct ++ "; charset=utf-8" else ct
      raw ++ [("content-type", ct)]

/-! ## The response data model -/

/-- Content source variant: which subclass the instance belongs to, with the
content-bearing fields of that subclass. A `JsonFileResponse` constructs a
`bytes` source (it IS-A `BytesFileResponse` after construction). The `text`
content is already encoded to bytes at construction, as in the source. -/
inductive Source where
  | file (path : String) (stat_result : Option StatResult)
  | bytes (content : Bytes)
  | text (content : Bytes)

/-- State of a response instance after `__init__`. `headers` models
`self.raw_headers`/`self.headers` (one shared list). `background` models the
cleanup task as the list of labels of its internal steps; invoking it emits
those steps in order. `chunk_size` is the class attribute (default 64 KiB),
overridable in subclasses. -/
structure Resp where
  status_code : Nat
  headers : List (String × String)
  media_type : Option String
  background : Option (List String)
  filename : Option String
  size : Option Nat
  mtime : Option Rat
  chunk_size : Nat
  source : Source

/-- ASGI scope: the request method, and the names of transport extensions
offered (the code never reads `extensions`). -/
structure Scope where
  method : String
  extensions : List String

/-- Observable events of one response invocation: the three wire frame kinds
(`http.response.start`, `http.response.body`, `http.response.pathsend`),
plus markers for completion of the `post_call` hook and for each internal
step of the background cleanup task. -/
inductive Event where
  | start (status : Nat) (headers : List (String × String)) : Event
  | body (payload : Bytes) (more_body : Bool) : Event
  | pathsend (path : String) : Event
  | postCall : Event
  | bgStep (s : String) : Event
deriving DecidableEq

/-! ## Module-level helper and methods -/

/-- `slicer(text, chunk_size)`: the generator expression
`text[chunk_index : chunk_index + chunk_size] for chunk_index in
range(0, len(text), chunk_size)`. A slice `text[i : i + n]` is
`(text.drop i).take n`, and `range(0, L, step)` for positive `step` has
`(L + step - 1) / step` elements. Empty for `chunk_size = 0` (Python
raises there; claims only use positive thresholds). -/
def slicer (text : Bytes) (chunk_size : Nat) : List Bytes :=
  (List.range' 0 ((text.length + chunk_size - 1) / chunk_size) chunk_size).map
    (fun chunk_index => (text.drop chunk_index).take chunk_size)

/-- `BaseFileResponse.set_stat_headers(size, mtime)`. -/
def set_stat_headers (env : Collab) (r : Resp) (size : Nat) (mtime : Rat) :
    Resp :=
  let content_length := toString size
  let last_modified := env.formatdate mtime
  let etag_base := env.strFloat mtime ++ "-" ++ toString size
  let etag := "\"" ++ env.md5_hexdigest etag_base ++ "\""
  let hs1 := setdefault r.headers ("content-length") content_length
  let hs2 := setdefault hs1 ("last-modified") last_modified
  let hs3 := setdefault hs2 ("etag") etag
  { r with headers := hs3 }

/-- `BaseFileResponse.set_content_disposition_header(content_disposition_type)`
(only called when `self.filename is not None`). -/
def set_content_disposition_header (r : Resp)
    (content_disposition_type : String) : Resp :=
  match r.filename with
  | none => r
  | some filename =>
    let content_disposition_filename := quote filename
    let content_disposition :=
      if content_disposition_filename ≠ filename then
        content_disposition_type ++ "; filename*=utf-8''" ++
          content_disposition_filename
      else
        content_disposition_type ++ "; filename=\"" ++ filename ++ "\""
    let hs := setdefault r.headers ("content-disposition") content_disposition
    { r with headers := hs }

/-- `BaseFileResponse.__init__`, shared by all subclasses (each subclass
passes its own `source`). -/
def baseInit (env : Collab) (status_code : Nat)
    (headers : Option (List (String × String))) (media_type : Option String)
    (background : Option (List String)) (filename : Option String)
    (size : Option Nat) (mtime : Option Rat)
    (content_disposition_type : String) (source : Source) : Resp :=
  let media_type := match media_type, filename with
    | none, some f => some (pyOrStr (env.guess_type f) ("text/plain"))
    | mt, _ => mt
  let r : Resp :=
    { status_code := status_code
      headers := init_headers media_type headers
      media_type := media_type
      background := background
      filename := filename
      size := size
      mtime := mtime
      chunk_size := 65536
      source := source }
  match filename with
  | none => r
  | some _ => set_content_disposition_header r content_disposition_type

/-- `FileResponse.__init__`. -/
def mkFileResponse (env : Collab) (path : String) (status_code : Nat)
    (headers : Option (List (String × String))) (media_type : Option String)
    (background : Option (List String)) (filename : Option String)
    (stat_result : Option StatResult) (content_disposition_type : String) :
    Resp :=
  let media_type := match media_type, filename with
    | none, none => env.guess_type path
    | mt, _ => mt
  let size := stat_result.map StatResult.st_size
  let mtime := stat_result.map StatResult.st_mtime
  baseInit env status_code headers media_type background filename size mtime
    content_disposition_type (Source.file path stat_result)

/-- `BytesFileResponse.__init__` (filename is required in this subclass). -/
def mkBytesFileResponse (env : Collab) (content : Bytes) (filename : String)
    (status_code : Nat) (headers : Option (List (String × String)))
    (media_type : Option String) (background : Option (List String))
    (size : Option Nat) (mtime : Option Rat)
    (content_disposition_type : String) : Resp :=
  baseInit env status_code headers media_type background (some filename) size
    mtime content_disposition_type (Source.bytes content)

/-- `TextFileResponse.__init__`: encodes content with `self.charset`
(`'utf-8'`) at construction. -/
def mkTextFileResponse (env : Collab) (content : String) (filename : String)
    (status_code : Nat) (headers : Option (List (String × String)))
    (media_type : Option String) (background : Option (List String))
    (size : Option Nat) (mtime : Option Rat)
    (content_disposition_type : String) : Resp :=
  baseInit env status_code headers media_type background (some filename) size
    mtime content_disposition_type (Source.text (utf8Encode content))

/-- `JsonFileResponse.__init__`: serializes with `json.dumps`, encodes with
`self.charset`, and delegates to `BytesFileResponse.__init__`. -/
def mkJsonFileResponse (env : Collab) (content : Json) (filename : String)
    (status_code : Nat) (headers : Option (List (String × String)))
    (media_type : Option String) (background : Option (List String))
    (size : Option Nat) (mtime : Option Rat)
    (content_disposition_type : String) : Resp :=
  mkBytesFileResponse env (utf8Encode (env.dumps content)) filename
    status_code headers media_type background size mtime
    content_disposition_type

/-- Message of the RuntimeError raised for a missing file. -/
def doesNotExistMsg (path : String) : String :=
  s!"File at path {path} does not exist."

/-- Message of the RuntimeError raised for a non-regular file. -/
def notAFileMsg (path : String) : String :=
  s!"File at path {path} is not a file."

/-- `pre_call` of each variant. `FileResponse.pre_call`: when no stat result
was precomputed, stat the path (FileNotFoundError becomes the
does-not-exist RuntimeError) and set the stat headers; in both branches,
raise the not-a-file RuntimeError unless `S_ISREG(st_mode)`.
`BytesFileResponse.pre_call`/`TextFileResponse.pre_call`: compute (and
discard) local defaults, then call
`set_stat_headers(self.size or len(self.content), self.mtime or
time.monotonic())`. The base `pre_call` is a no-op. -/
def pre_call (env : Collab) (fs : FileSystem) (r : Resp) :
    Except String Resp :=
  match r.source with
  | Source.file path stat_result =>
    match stat_result with
    | none =>
      match fs.stat path with
      | none => Except.error (doesNotExistMsg path)
      | some st =>
        let r := set_stat_headers env r st.st_size st.st_mtime
        if S_ISREG st.st_mode then Except.ok r
        else Except.error (notAFileMsg path)
    | some st =>
      if S_ISREG st.st_mode then Except.ok r
      else Except.error (notAFileMsg path)
  | Source.bytes content =>
    Except.ok (set_stat_headers env r (pyOrNat r.size content.length)
      (pyOrRat r.mtime env.now))
  | Source.text content =>
    Except.ok (set_stat_headers env r (pyOrNat r.size content.length)
      (pyOrRat r.mtime env.now))

/-- `iterate_content(chunk_size)` of each variant. `FileResponse`: opens the
file and yields the result of a single `file.read(chunk_size)` — exactly one
chunk of at most `chunk_size` bytes. In-memory variants: `slicer`. -/
def iterate_content (fs : FileSystem) (r : Resp) (chunk_size : Nat) :
    List Bytes :=
  match r.source with
  | Source.file path _ => [(fs.read path).take chunk_size]
  | Source.bytes content => slicer content chunk_size
  | Source.text content => slicer content chunk_size

/-- Body frames of the non-HEAD branch of `__call__`: each chunk of
`iterate_content(self.chunk_size)` is sent in order with
`more_body = (len(chunk) == self.chunk_size)`. -/
def content_frames (fs : FileSystem) (r : Resp) : List Event :=
  (iterate_content fs r r.chunk_size).map
    (fun c => Event.body c (c.length == r.chunk_size))

/-- Body frames of `__call__`: the single empty terminal frame for HEAD
(any letter case), the chunked content frames otherwise. -/
def body_frames (fs : FileSystem) (scope : Scope) (r : Resp) : List Event :=
  if pyUpper scope.method == "HEAD" then [Event.body [] false]
  else content_frames fs r

/-- Events of the background cleanup task: its internal steps, in order,
emitted when (and only when) a task was supplied. -/
def bgEvents (r : Resp) : List Event :=
  match r.background with
  | none => []
  | some steps => steps.map Event.bgStep

/-- `BaseFileResponse.__call__(scope, receive, send)`: run `pre_call` (a
raised error aborts before any frame), send the start frame from
`status_code`/`raw_headers`, then the body frames, then the `post_call`
hook (a no-op; its completion is recorded as an event), then the background
cleanup task when present. Returns the emitted event trace and the raised
error message, if any. -/
def respCall (env : Collab) (fs : FileSystem) (scope : Scope) (r : Resp) :
    List Event × Option String :=
  match pre_call env fs r with
  | Except.error msg => ([], some msg)
  | Except.ok r2 =>
    (Event.start r2.status_code r2.headers ::
      (body_frames fs scope r2 ++ [Event.postCall] ++ bgEvents r2), none)

/-! ## Trace observations -/

/-- Concatenation of the payloads of the body frames of a trace, in order. -/
def bodyPayloads (evts : List Event) : Bytes :=
  (evts.map (fun e => match e with
    | Event.body payload _ => payload
    | _ => [])).flatten

/-- Recognizer for body frames. -/
def isBodyFrame : Event → Bool
  | Event.body _ _ => true
  | _ => false

/-- Recognizer for pathsend frames. -/
def isPathsendFrame : Event → Bool
  | Event.pathsend _ => true
  | _ => false

/-! ## Concrete collaborators and inputs used by witnesses -/

/-- Concrete collaborator instance for witness evaluation: the hash and the
date/float renderings are simple total stand-ins. -/
def trivEnv : Collab where
  md5_hexdigest := fun s => "H" ++ s
  formatdate := fun _ => "DATE"
  strFloat := fun _ => "MT"
  guess_type := fun _ => none
  dumps := fun _ => "null"
  now := 7

/-- Mode bits of a regular file (`0o100644`). -/
def regularMode : Nat := 33188

/-- Mode bits of a directory (`0o40755`). -/
def directoryMode : Nat := 16877

/-- Concrete filesystem: one regular 3-byte file `f.bin`, one directory
`d`; everything else is absent. -/
def fsA : FileSystem where
  stat := fun p =>
    if p = "f.bin" then some { st_size := 3, st_mtime := 5, st_mode := 33188 }
    else if p = "d" then some { st_size := 0, st_mtime := 5, st_mode := 16877 }
    else none
  read := fun p => if p = "f.bin" then [10, 20, 30] else []

/-- A plain GET scope with no transport extensions. -/
def scopeGet : Scope where
  method := "GET"
  extensions := []

/-- A GET scope advertising the pathsend transport extension. -/
def scopePathsend : Scope where
  method := "GET"
  extensions := ["http.response.pathsend"]

/-- A HEAD scope using lowercase letters, as in the repository's test. -/
def scopeHeadLower : Scope where
  method := "head"
  extensions := []

/-- The spec's relation between headers before and after a
`set_stat_headers(size, mtime)` call: each of content-length,
last-modified and etag holds the derived value when its key was absent
before, and keeps its prior value when present (caller-supplied values are
never overwritten). -/
def derivedOk (env : Collab) (old new : List (String × String))
    (size : Nat) (mtime : Rat) : Prop :=
  (containsKey old ("content-length") = false →
    lookupHeader new ("content-length") = some (toString size)) ∧
  (∀ w, lookupHeader old ("content-length") = some w →
    lookupHeader new ("content-length") = some w) ∧
  (containsKey old ("last-modified") = false →
    lookupHeader new ("last-modified") = some (env.formatdate mtime)) ∧
  (∀ w, lookupHeader old ("last-modified") = some w →
    lookupHeader new ("last-modified") = some w) ∧
  (containsKey old ("etag") = false →
    lookupHeader new ("etag") =
      some ("\"" ++ env.md5_hexdigest (env.strFloat mtime ++ "-" ++
        toString size) ++ "\"")) ∧
  (∀ w, lookupHeader old ("etag") = some w →
    lookupHeader new ("etag") = some w)

/-- `FileResponse('f.bin')` with a small overridden chunk threshold of 2,
against the 3-byte file of `fsA`. -/
def respFileChunk2 : Resp :=
  { mkFileResponse trivEnv ("f.bin") 200 none none none none none
      ("attachment") with chunk_size := 2 }

/-- `BytesFileResponse([1, 2], 'f')` with chunk threshold overridden to 2,
so the content length is an exact multiple of the threshold. -/
def respBytesChunk2 : Resp :=
  { mkBytesFileResponse trivEnv [1, 2] ("f") 200 none none none none none
      ("attachment") with chunk_size := 2 }

/-- `FileResponse('f.bin')` with the default chunk threshold. -/
def respFilePlain : Resp :=
  mkFileResponse trivEnv ("f.bin") 200 none none none none none
    ("attachment")

/-- The stat result of the regular file `f.bin` of `fsA`. -/
def statFBin : StatResult where
  st_size := 3
  st_mtime := 5
  st_mode := 33188

/-- `FileResponse('f.bin', stat_result=...)` with a precomputed stat
result. -/
def respFileWithStat : Resp :=
  mkFileResponse trivEnv ("f.bin") 200 none none none none (some statFBin)
    ("attachment")

/-- `BytesFileResponse([1, 2], 'f')` with default metadata. -/
def respBytesSmall : Resp :=
  mkBytesFileResponse trivEnv [1, 2] ("f") 200 none none none none none
    ("attachment")

/-- `BytesFileResponse([1, 2], 'f', background=...)` with a two-step
cleanup task. -/
def respBytesWithBg : Resp :=
  mkBytesFileResponse trivEnv [1, 2] ("f") 200 none none
    (some ["b1", "b2"]) none none ("attachment")

/-- `BytesFileResponse([1, 2, 3], 'f', size=0, mtime=0.0)`: explicitly
supplied falsy metadata. -/
def respBytesZeroMeta : Resp :=
  mkBytesFileResponse trivEnv [1, 2, 3] ("f") 200 none none none (some 0)
    (some 0) ("attachment")

end SRK

/-! ## Header-container lemmas -/

namespace SRK

theorem find?_eq_none_of_containsKey_false (hs : List (String × String))
    (k : String) (h : containsKey hs k = false) :
    hs.find? (fun x => x.1 == k) = none := by
  rw [List.find?_eq_none]
  intro x hx hxk
  have hck : containsKey hs k = true := by
    rw [containsKey, List.any_eq_true]
    exact ⟨x, hx, hxk⟩
  rw [hck] at h
  exact Bool.true_eq_false.mp h

theorem lookupHeader_setdefault_self (hs : List (String × String))
    (k v : String) (h : containsKey hs k = false) :
    lookupHeader (setdefault hs k v) k = some v := by
  rw [setdefault, h]
  simp only [Bool.false_eq_true, if_false, lookupHeader, List.find?_append,
    find?_eq_none_of_containsKey_false hs k h, Option.none_or]
  simp [List.find?]

theorem lookupHeader_append_single_ne (hs : List (String × String))
    (k v k' : String) (hne : k' ≠ k) :
    lookupHeader (hs ++ [(k, v)]) k' = lookupHeader hs k' := by
  rw [lookupHeader, lookupHeader, List.find?_append]
  have hkk : (k == k') = false := beq_eq_false_iff_ne.mpr (Ne.symm hne)
  have : List.find? (fun x => x.1 == k') [(k, v)] = none := by
    simp [List.find?, hkk]
  rw [this, Option.or_none]

theorem containsKey_append_single_ne (hs : List (String × String))
    (k v k' : String) (hne : k' ≠ k) :
    containsKey (hs ++ [(k, v)]) k' = containsKey hs k' := by
  rw [containsKey, containsKey, List.any_append]
  have hkk : (k == k') = false := beq_eq_false_iff_ne.mpr (Ne.symm hne)
  have : List.any [(k, v)] (fun h => h.1 == k') = false := by
    simp [hkk]
  rw [this, Bool.or_false]

theorem lookupHeader_setdefault_of_some (hs : List (String × String))
    (k v k' w : String) (h : lookupHeader hs k' = some w) :
    lookupHeader (setdefault hs k v) k' = some w := by
  rw [setdefault]
  by_cases hck : containsKey hs k
  · rw [if_pos hck]; exact h
  · rw [if_neg hck]
    by_cases hkk : k' = k
    · subst hkk
      exfalso
      rw [lookupHeader, Option.map_eq_some'] at h
      obtain ⟨p, hp, -⟩ := h
      rw [find?_eq_none_of_containsKey_false hs k'
        (Bool.eq_false_iff.mpr hck)] at hp
      exact Option.noConfusion hp
    · rw [lookupHeader_append_single_ne hs k v k' hkk]; exact h

theorem lookupHeader_setdefault_ne (hs : List (String × String))
    (k v k' : String) (hne : k' ≠ k) :
    lookupHeader (setdefault hs k v) k' = lookupHeader hs k' := by
  rw [setdefault]
  by_cases hck : containsKey hs k
  · rw [if_pos hck]
  · rw [if_neg hck, lookupHeader_append_single_ne hs k v k' hne]

theorem containsKey_setdefault_ne (hs : List (String × String))
    (k v k' : String) (hne : k' ≠ k) :
    containsKey (setdefault hs k v) k' = containsKey hs k' := by
  rw [setdefault]
  by_cases hck : containsKey hs k
  · rw [if_pos hck]
  · rw [if_neg hck, containsKey_append_single_ne hs k v k' hne]

end SRK

namespace SRK

theorem set_stat_headers_fields (env : Collab) (r : Resp) (size : Nat)
    (mtime : Rat) :
    (set_stat_headers env r size mtime).status_code = r.status_code ∧
    (set_stat_headers env r size mtime).background = r.background ∧
    (set_stat_headers env r size mtime).source = r.source ∧
    (set_stat_headers env r size mtime).size = r.size ∧
    (set_stat_headers env r size mtime).mtime = r.mtime ∧
    (set_stat_headers env r size mtime).chunk_size = r.chunk_size ∧
    (set_stat_headers env r size mtime).filename = r.filename :=
  ⟨rfl, rfl, rfl, rfl, rfl, rfl, rfl⟩

theorem set_stat_headers_derivedOk (env : Collab) (r : Resp) (size : Nat)
    (mtime : Rat) :
    derivedOk env r.headers (set_stat_headers env r size mtime).headers
      size mtime := by
  have hne1 : ("content-length" : String) ≠ "last-modified" := by decide
  have hne2 : ("content-length" : String) ≠ "etag" := by decide
  have hne3 : ("last-modified" : String) ≠ "etag" := by decide
  have hne4 : ("last-modified" : String) ≠ "content-length" := by decide
  have hne5 : ("etag" : String) ≠ "content-length" := by decide
  have hne6 : ("etag" : String) ≠ "last-modified" := by decide
  refine ⟨?_, ?_, ?_, ?_, ?_, ?_⟩
  · intro h
    show lookupHeader (setdefault (setdefault (setdefault r.headers _ _) _ _) _ _) _ = _
    rw [lookupHeader_setdefault_ne _ _ _ _ hne2,
      lookupHeader_setdefault_ne _ _ _ _ hne1,
      lookupHeader_setdefault_self _ _ _ h]
  · intro w h
    exact lookupHeader_setdefault_of_some _ _ _ _ _
      (lookupHeader_setdefault_of_some _ _ _ _ _
        (lookupHeader_setdefault_of_some _ _ _ _ _ h))
  · intro h
    show lookupHeader (setdefault (setdefault (setdefault r.headers _ _) _ _) _ _) _ = _
    rw [lookupHeader_setdefault_ne _ _ _ _ hne3,
      lookupHeader_setdefault_self]
    rw [containsKey_setdefault_ne _ _ _ _ hne4]
    exact h
  · intro w h
    exact lookupHeader_setdefault_of_some _ _ _ _ _
      (lookupHeader_setdefault_of_some _ _ _ _ _
        (lookupHeader_setdefault_of_some _ _ _ _ _ h))
  · intro h
    show lookupHeader (setdefault (setdefault (setdefault r.headers _ _) _ _) _ _) _ = _
    rw [lookupHeader_setdefault_self]
    rw [containsKey_setdefault_ne _ _ _ _ hne6,
      containsKey_setdefault_ne _ _ _ _ hne5]
    exact h
  · intro w h
    exact lookupHeader_setdefault_of_some _ _ _ _ _
      (lookupHeader_setdefault_of_some _ _ _ _ _
        (lookupHeader_setdefault_of_some _ _ _ _ _ h))

end SRK

namespace SRK

theorem pre_call_bytes (env : Collab) (fs : FileSystem) (r : Resp)
    (content : Bytes) (h : r.source = Source.bytes content) :
    pre_call env fs r = Except.ok (set_stat_headers env r
      (pyOrNat r.size content.length) (pyOrRat r.mtime env.now)) := by
  simp only [pre_call, h]

theorem pre_call_text (env : Collab) (fs : FileSystem) (r : Resp)
    (content : Bytes) (h : r.source = Source.text content) :
    pre_call env fs r = Except.ok (set_stat_headers env r
      (pyOrNat r.size content.length) (pyOrRat r.mtime env.now)) := by
  simp only [pre_call, h]

theorem pre_call_file_stat_absent (env : Collab) (fs : FileSystem)
    (r : Resp) (path : String) (h : r.source = Source.file path none)
    (hstat : fs.stat path = none) :
    pre_call env fs r = Except.error (doesNotExistMsg path) := by
  simp only [pre_call, h, hstat]

theorem pre_call_file_stat_found (env : Collab) (fs : FileSystem)
    (r : Resp) (path : String) (st : StatResult)
    (h : r.source = Source.file path none)
    (hstat : fs.stat path = some st) :
    pre_call env fs r =
      if S_ISREG st.st_mode then
        Except.ok (set_stat_headers env r st.st_size st.st_mtime)
      else Except.error (notAFileMsg path) := by
  simp only [pre_call, h, hstat]

theorem pre_call_file_precomputed (env : Collab) (fs : FileSystem)
    (r : Resp) (path : String) (st : StatResult)
    (h : r.source = Source.file path (some st)) :
    pre_call env fs r =
      if S_ISREG st.st_mode then Except.ok r
      else Except.error (notAFileMsg path) := by
  simp only [pre_call, h]

theorem pre_call_ok_background (env : Collab) (fs : FileSystem)
    (r r2 : Resp) (h : pre_call env fs r = Except.ok r2) :
    r2.background = r.background := by
  rcases hsrc : r.source with ⟨path, stat_result⟩ | content | content
  · rcases stat_result with - | st
    · rcases hstat : fs.stat path with - | st
      · rw [pre_call_file_stat_absent env fs r path hsrc hstat] at h
        exact Except.noConfusion h
      · rw [pre_call_file_stat_found env fs r path st hsrc hstat] at h
        by_cases hreg : S_ISREG st.st_mode
        · rw [if_pos hreg] at h
          cases h
          exact (set_stat_headers_fields env r st.st_size st.st_mtime).2.1
        · rw [if_neg hreg] at h
          exact Except.noConfusion h
    · rw [pre_call_file_precomputed env fs r path st hsrc] at h
      by_cases hreg : S_ISREG st.st_mode
      · rw [if_pos hreg] at h
        cases h
        rfl
      · rw [if_neg hreg] at h
        exact Except.noConfusion h
  · rw [pre_call_bytes env fs r content hsrc] at h
    cases h
    exact (set_stat_headers_fields env r _ _).2.1
  · rw [pre_call_text env fs r content hsrc] at h
    cases h
    exact (set_stat_headers_fields env r _ _).2.1

theorem respCall_ok (env : Collab) (fs : FileSystem) (scope : Scope)
    (r r2 : Resp) (h : pre_call env fs r = Except.ok r2) :
    respCall env fs scope r =
      (Event.start r2.status_code r2.headers ::
        (body_frames fs scope r2 ++ [Event.postCall] ++ bgEvents r2),
        none) := by
  simp only [respCall, h]

theorem respCall_error (env : Collab) (fs : FileSystem) (scope : Scope)
    (r : Resp) (msg : String) (h : pre_call env fs r = Except.error msg) :
    respCall env fs scope r = ([], some msg) := by
  simp only [respCall, h]

theorem body_frames_shape (fs : FileSystem) (scope : Scope) (r : Resp) :
    ∀ e ∈ body_frames fs scope r, ∃ p m, e = Event.body p m := by
  intro e he
  rw [body_frames] at he
  by_cases hm : pyUpper scope.method == "HEAD"
  · rw [if_pos hm] at he
    rcases List.mem_singleton.mp he with rfl
    exact ⟨[], false, rfl⟩
  · rw [if_neg hm] at he
    rw [content_frames] at he
    rcases List.mem_map.mp he with ⟨c, -, rfl⟩
    exact ⟨c, _, rfl⟩

theorem set_content_disposition_header_fields (r : Resp) (cdt : String) :
    (set_content_disposition_header r cdt).source = r.source ∧
    (set_content_disposition_header r cdt).background = r.background ∧
    (set_content_disposition_header r cdt).size = r.size ∧
    (set_content_disposition_header r cdt).mtime = r.mtime ∧
    (set_content_disposition_header r cdt).status_code = r.status_code ∧
    (set_content_disposition_header r cdt).chunk_size = r.chunk_size := by
  rw [set_content_disposition_header]
  rcases hf : r.filename with - | fn
  · exact ⟨rfl, rfl, rfl, rfl, rfl, rfl⟩
  · exact ⟨rfl, rfl, rfl, rfl, rfl, rfl⟩

theorem baseInit_fields (env : Collab) (status_code : Nat)
    (headers : Option (List (String × String))) (media_type : Option String)
    (background : Option (List String)) (filename : Option String)
    (size : Option Nat) (mtime : Option Rat)
    (content_disposition_type : String) (source : Source) :
    (baseInit env status_code headers media_type background filename size
      mtime content_disposition_type source).source = source ∧
    (baseInit env status_code headers media_type background filename size
      mtime content_disposition_type source).background = background ∧
    (baseInit env status_code headers media_type background filename size
      mtime content_disposition_type source).size = size ∧
    (baseInit env status_code headers media_type background filename size
      mtime content_disposition_type source).mtime = mtime ∧
    (baseInit env status_code headers media_type background filename size
      mtime content_disposition_type source).status_code = status_code ∧
    (baseInit env status_code headers media_type background filename size
      mtime content_disposition_type source).chunk_size = 65536 := by
  cases filename <;> cases media_type <;>
    exact ⟨rfl, rfl, rfl, rfl, rfl, rfl⟩

end SRK

namespace SRK

theorem mkFileResponse_fields (env : Collab) (path : String)
    (status_code : Nat) (headers : Option (List (String × String)))
    (media_type : Option String) (background : Option (List String))
    (filename : Option String) (stat_result : Option StatResult)
    (content_disposition_type : String) :
    (mkFileResponse env path status_code headers media_type background
      filename stat_result content_disposition_type).source =
        Source.file path stat_result ∧
    (mkFileResponse env path status_code headers media_type background
      filename stat_result content_disposition_type).background =
        background := by
  simp only [mkFileResponse]
  exact ⟨(baseInit_fields _ _ _ _ _ _ _ _ _ _).1,
    (baseInit_fields _ _ _ _ _ _ _ _ _ _).2.1⟩

theorem mkBytesFileResponse_fields (env : Collab) (content : Bytes)
    (filename : String) (status_code : Nat)
    (headers : Option (List (String × String)))
    (media_type : Option String) (background : Option (List String))
    (size : Option Nat) (mtime : Option Rat)
    (content_disposition_type : String) :
    (mkBytesFileResponse env content filename status_code headers media_type
      background size mtime content_disposition_type).source =
        Source.bytes content ∧
    (mkBytesFileResponse env content filename status_code headers media_type
      background size mtime content_disposition_type).size = size ∧
    (mkBytesFileResponse env content filename status_code headers media_type
      background size mtime content_disposition_type).mtime = mtime := by
  simp only [mkBytesFileResponse]
  exact ⟨(baseInit_fields _ _ _ _ _ _ _ _ _ _).1,
    (baseInit_fields _ _ _ _ _ _ _ _ _ _).2.2.1,
    (baseInit_fields _ _ _ _ _ _ _ _ _ _).2.2.2.1⟩

theorem mkTextFileResponse_fields (env : Collab) (content : String)
    (filename : String) (status_code : Nat)
    (headers : Option (List (String × String)))
    (media_type : Option String) (background : Option (List String))
    (size : Option Nat) (mtime : Option Rat)
    (content_disposition_type : String) :
    (mkTextFileResponse env content filename status_code headers media_type
      background size mtime content_disposition_type).source =
        Source.text (utf8Encode content) ∧
    (mkTextFileResponse env content filename status_code headers media_type
      background size mtime content_disposition_type).size = size ∧
    (mkTextFileResponse env content filename status_code headers media_type
      background size mtime content_disposition_type).mtime = mtime := by
  simp only [mkTextFileResponse]
  exact ⟨(baseInit_fields _ _ _ _ _ _ _ _ _ _).1,
    (baseInit_fields _ _ _ _ _ _ _ _ _ _).2.2.1,
    (baseInit_fields _ _ _ _ _ _ _ _ _ _).2.2.2.1⟩

/-- C5: a FileResponse constructed without a precomputed stat result fails
with the does-not-exist RuntimeError when the path is missing, and with the
distinct is-not-a-file RuntimeError when the path is not a regular file; in
both cases the failure happens before any frame is emitted (the trace is
empty). -/
theorem C5_errors_before_any_frame (env : Collab) (fs : FileSystem)
    (scope : Scope) (path : String) (status_code : Nat)
    (headers : Option (List (String × String)))
    (media_type : Option String) (background : Option (List String))
    (filename : Option String) (content_disposition_type : String) :
    (fs.stat path = none →
      respCall env fs scope (mkFileResponse env path status_code headers
        media_type background filename none content_disposition_type) =
      ([], some (doesNotExistMsg path))) ∧
    (∀ st, fs.stat path = some st → S_ISREG st.st_mode = false →
      respCall env fs scope (mkFileResponse env path status_code headers
        media_type background filename none content_disposition_type) =
      ([], some (notAFileMsg path))) := by
  have hsrc := (mkFileResponse_fields env path status_code headers media_type
    background filename none content_disposition_type).1
  constructor
  · intro hstat
    exact respCall_error _ _ _ _ _
      (pre_call_file_stat_absent _ _ _ _ hsrc hstat)
  · intro st hstat hreg
    refine respCall_error _ _ _ _ _ ?_
    rw [pre_call_file_stat_found _ _ _ _ _ hsrc hstat, if_neg]
    rw [hreg]
    exact Bool.false_ne_true

/-- C5 witness: against the concrete filesystem `fsA`, requesting the
absent path `nope` and the directory path `d` produce the two error
messages with empty traces. -/
theorem C5_errors_before_any_frame_witness :
    respCall trivEnv fsA scopeGet (mkFileResponse trivEnv ("nope") 200 none
      none none none none ("attachment")) =
      ([], some ("File at path nope does not exist.")) ∧
    respCall trivEnv fsA scopeGet (mkFileResponse trivEnv ("d") 200 none
      none none none none ("attachment")) =
      ([], some ("File at path d is not a file.")) := by
  constructor
  · have h := (C5_errors_before_any_frame trivEnv fsA scopeGet ("nope") 200
      none none none none ("attachment")).1 (by decide)
    exact h.trans (by decide)
  · have h := (C5_errors_before_any_frame trivEnv fsA scopeGet ("d") 200
      none none none none ("attachment")).2
      { st_size := 0, st_mtime := 5, st_mode := 16877 } (by decide)
      (by decide)
    exact h.trans (by decide)

end SRK

namespace SRK

/-- C6: for every content source, when the pre-send hook succeeds and the
request method upper-cases to HEAD, the trace is the start frame carrying
the computed status and headers, exactly one empty body frame with
more_body false, the post-hook marker and the background events — zero
content chunks are emitted. -/
theorem C6_head_single_empty_frame (env : Collab) (fs : FileSystem)
    (scope : Scope) (r r2 : Resp)
    (hok : pre_call env fs r = Except.ok r2)
    (hm : pyUpper scope.method = "HEAD") :
    respCall env fs scope r =
      (Event.start r2.status_code r2.headers :: Event.body [] false ::
        Event.postCall :: bgEvents r2, none) := by
  rw [respCall_ok env fs scope r r2 hok]
  rw [body_frames, if_pos (beq_iff_eq.mpr hm)]
  simp

/-- C6 witness: a lowercase `head` request on the concrete file response
yields exactly the start frame and one empty terminal body frame. -/
theorem C6_head_single_empty_frame_witness :
    respCall trivEnv fsA scopeHeadLower respFilePlain =
      ([Event.start 200 [("content-length", "3"), ("last-modified", "DATE"),
          ("etag", "\"HMT-3\"")],
        Event.body [] false, Event.postCall], none) := by
  have hok : pre_call trivEnv fsA respFilePlain =
      Except.ok (set_stat_headers trivEnv respFilePlain 3 5) := by rfl
  have h := C6_head_single_empty_frame trivEnv fsA scopeHeadLower
    respFilePlain (set_stat_headers trivEnv respFilePlain 3 5) hok
    (by decide)
  exact h.trans (by decide)

/-- C8: for every content source, when a cleanup task was supplied at
construction and the pre-send hook succeeds, the trace is exactly the start
frame, the body frames, the post-hook completion marker, and then — and
only then — every internal step of the cleanup task, once, in order;
no step of the task occurs anywhere earlier in the trace. -/
theorem C8_background_after_body_and_hook (env : Collab) (fs : FileSystem)
    (scope : Scope) (r r2 : Resp) (steps : List String)
    (hok : pre_call env fs r = Except.ok r2)
    (hbg : r.background = some steps) :
    respCall env fs scope r =
      ((Event.start r2.status_code r2.headers ::
        (body_frames fs scope r2 ++ [Event.postCall])) ++
        steps.map Event.bgStep, none) ∧
    ∀ s, Event.bgStep s ∉
      Event.start r2.status_code r2.headers ::
        (body_frames fs scope r2 ++ [Event.postCall]) := by
  have hbg2 : r2.background = some steps :=
    (pre_call_ok_background env fs r r2 hok).trans hbg
  constructor
  · rw [respCall_ok env fs scope r r2 hok]
    rw [bgEvents, hbg2]
    simp
  · intro s hmem
    rcases List.mem_cons.mp hmem with h | h
    · exact Event.noConfusion h
    · rcases List.mem_append.mp h with h2 | h2
      · rcases body_frames_shape fs scope r2 _ h2 with ⟨p, m, hpm⟩
        exact Event.noConfusion hpm
      · rcases List.mem_singleton.mp h2 with h3
        exact Event.noConfusion h3

/-- C8 witness: the concrete bytes response with a two-step cleanup task
emits the steps exactly once, after the body and the post-hook marker, and
neither step occurs earlier in the trace. -/
theorem C8_background_after_body_and_hook_witness :
    respCall trivEnv fsA scopeGet respBytesWithBg =
      (([Event.start 200
          [("content-type", "text/plain; charset=utf-8"),
           ("content-disposition", "attachment; filename=\"f\""),
           ("content-length", "2"), ("last-modified", "DATE"),
           ("etag", "\"HMT-2\"")],
         Event.body [1, 2] false, Event.postCall] ++
        [Event.bgStep ("b1"), Event.bgStep ("b2")]), none) ∧
    Event.bgStep ("b1") ∉
      Event.start 200
          [("content-type", "text/plain; charset=utf-8"),
           ("content-disposition", "attachment; filename=\"f\""),
           ("content-length", "2"), ("last-modified", "DATE"),
           ("etag", "\"HMT-2\"")] ::
        (body_frames fsA scopeGet (set_stat_headers trivEnv respBytesWithBg
          2 7) ++ [Event.postCall]) := by
  have hok : pre_call trivEnv fsA respBytesWithBg =
      Except.ok (set_stat_headers trivEnv respBytesWithBg 2 7) := by rfl
  have h := C8_background_after_body_and_hook trivEnv fsA scopeGet
    respBytesWithBg (set_stat_headers trivEnv respBytesWithBg 2 7)
    ["b1", "b2"] hok (by rfl)
  constructor
  · exact h.1.trans (by decide)
  · have h2 := h.2 ("b1")
    intro hmem
    apply h2
    have : Event.start 200
        [("content-type", "text/plain; charset=utf-8"),
         ("content-disposition", "attachment; filename=\"f\""),
         ("content-length", "2"), ("last-modified", "DATE"),
         ("etag", "\"HMT-2\"")] =
        Event.start (set_stat_headers trivEnv respBytesWithBg
          2 7).status_code (set_stat_headers trivEnv respBytesWithBg
          2 7).headers := by decide
    rw [this] at hmem
    exact hmem

end SRK

namespace SRK

/-- C9: a JsonFileResponse is exactly the BytesFileResponse built from the
serialized-and-encoded structure: the constructed response states are
equal, and hence every invocation produces the same trace. -/
theorem C9_json_refines_bytes (env : Collab) (content : Json)
    (filename : String) (status_code : Nat)
    (headers : Option (List (String × String)))
    (media_type : Option String) (background : Option (List String))
    (size : Option Nat) (mtime : Option Rat)
    (content_disposition_type : String) :
    mkJsonFileResponse env content filename status_code headers media_type
      background size mtime content_disposition_type =
    mkBytesFileResponse env (utf8Encode (env.dumps content)) filename
      status_code headers media_type background size mtime
      content_disposition_type ∧
    ∀ (fs : FileSystem) (scope : Scope),
      respCall env fs scope (mkJsonFileResponse env content filename
        status_code headers media_type background size mtime
        content_disposition_type) =
      respCall env fs scope (mkBytesFileResponse env
        (utf8Encode (env.dumps content)) filename status_code headers
        media_type background size mtime content_disposition_type) :=
  ⟨rfl, fun _ _ => rfl⟩

/-- C10: when a BytesFileResponse or TextFileResponse is constructed with
size=0 and mtime=0.0, the pre-send hook derives the identity headers from
the fallbacks — the encoded content's length and the fresh clock reading —
not from the supplied zeros. -/
theorem C10_falsy_size_mtime_fallback (env : Collab) (fs : FileSystem)
    (content : Bytes) (textContent : String) (filename : String)
    (status_code : Nat) (headers : Option (List (String × String)))
    (media_type : Option String) (background : Option (List String))
    (content_disposition_type : String) :
    (∀ r2, pre_call env fs (mkBytesFileResponse env content filename
        status_code headers media_type background (some 0) (some 0)
        content_disposition_type) = Except.ok r2 →
      derivedOk env (mkBytesFileResponse env content filename status_code
        headers media_type background (some 0) (some 0)
        content_disposition_type).headers r2.headers content.length
        env.now) ∧
    (∀ r2, pre_call env fs (mkTextFileResponse env textContent filename
        status_code headers media_type background (some 0) (some 0)
        content_disposition_type) = Except.ok r2 →
      derivedOk env (mkTextFileResponse env textContent filename status_code
        headers media_type background (some 0) (some 0)
        content_disposition_type).headers r2.headers
        (utf8Encode textContent).length env.now) := by
  constructor
  · intro r2 hok
    have hf := mkBytesFileResponse_fields env content filename status_code
      headers media_type background (some 0) (some 0)
      content_disposition_type
    rw [pre_call_bytes env fs _ content hf.1] at hok
    cases hok
    have hsz : pyOrNat (mkBytesFileResponse env content filename status_code
        headers media_type background (some 0) (some 0)
        content_disposition_type).size content.length = content.length := by
      rw [hf.2.1]
      rfl
    have hmt : pyOrRat (mkBytesFileResponse env content filename status_code
        headers media_type background (some 0) (some 0)
        content_disposition_type).mtime env.now = env.now := by
      rw [hf.2.2]
      simp [pyOrRat]
    rw [hsz, hmt]
    exact set_stat_headers_derivedOk env _ content.length env.now
  · intro r2 hok
    have hf := mkTextFileResponse_fields env textContent filename status_code
      headers media_type background (some 0) (some 0)
      content_disposition_type
    rw [pre_call_text env fs _ (utf8Encode textContent) hf.1] at hok
    cases hok
    have hsz : pyOrNat (mkTextFileResponse env textContent filename
        status_code headers media_type background (some 0) (some 0)
        content_disposition_type).size (utf8Encode textContent).length =
        (utf8Encode textContent).length := by
      rw [hf.2.1]
      rfl
    have hmt : pyOrRat (mkTextFileResponse env textContent filename
        status_code headers media_type background (some 0) (some 0)
        content_disposition_type).mtime env.now = env.now := by
      rw [hf.2.2]
      simp [pyOrRat]
    rw [hsz, hmt]
    exact set_stat_headers_derivedOk env _ (utf8Encode textContent).length
      env.now

/-- C10 witness: the concrete bytes response with content [1, 2, 3],
size=0 and mtime=0.0 gets content-length 3 (not 0) and a last-modified
derived from the clock reading. -/
theorem C10_falsy_size_mtime_fallback_witness :
    lookupHeader (set_stat_headers trivEnv respBytesZeroMeta 3
      (7 : Rat)).headers ("content-length") = some ("3") ∧
    lookupHeader (set_stat_headers trivEnv respBytesZeroMeta 3
      (7 : Rat)).headers ("last-modified") = some ("DATE") := by
  have h := (C10_falsy_size_mtime_fallback trivEnv fsA [1, 2, 3] ""
    ("f") 200 none none none ("attachment")).1
    (set_stat_headers trivEnv respBytesZeroMeta 3 (7 : Rat)) rfl
  constructor
  · exact (h.1 (by decide)).trans (by decide)
  · exact (h.2.2.1 (by decide)).trans (by decide)

end SRK

namespace SRK

/-- C3 counterexample: a FileResponse constructed WITH a precomputed stat
result passes the pre-send hook unchanged and carries none of
content-length, last-modified or etag — contradicting the claim that the
three identity headers are present for every combination of supplied or
omitted size, mtime and stat_result. -/
theorem C3_counterexample_precomputed_stat :
    pre_call trivEnv fsA respFileWithStat = Except.ok respFileWithStat ∧
    lookupHeader respFileWithStat.headers ("content-length") = none ∧
    lookupHeader respFileWithStat.headers ("last-modified") = none ∧
    lookupHeader respFileWithStat.headers ("etag") = none :=
  ⟨rfl, by decide, by decide, by decide⟩

/-- C3 (amended): after a successful pre-send hook, the identity headers
are derived and set-if-absent as described for the in-memory variants
(from the truthiness-resolved size and mtime) and for a FileResponse
without a precomputed stat result (from the fresh stat); a FileResponse
with a precomputed stat result is returned unchanged — no identity header
is set on that path. -/
theorem C3_amended_identity_headers (env : Collab) (fs : FileSystem)
    (r r2 : Resp) (hok : pre_call env fs r = Except.ok r2) :
    (∀ content, (r.source = Source.bytes content ∨
        r.source = Source.text content) →
      derivedOk env r.headers r2.headers (pyOrNat r.size content.length)
        (pyOrRat r.mtime env.now)) ∧
    (∀ path st, r.source = Source.file path none → fs.stat path = some st →
      derivedOk env r.headers r2.headers st.st_size st.st_mtime) ∧
    (∀ path st, r.source = Source.file path (some st) → r2 = r) := by
  refine ⟨?_, ?_, ?_⟩
  · intro content hsrc
    rcases hsrc with h | h
    · rw [pre_call_bytes env fs r content h] at hok
      cases hok
      exact set_stat_headers_derivedOk env r _ _
    · rw [pre_call_text env fs r content h] at hok
      cases hok
      exact set_stat_headers_derivedOk env r _ _
  · intro path st hsrc hstat
    rw [pre_call_file_stat_found env fs r path st hsrc hstat] at hok
    by_cases hreg : S_ISREG st.st_mode
    · rw [if_pos hreg] at hok
      cases hok
      exact set_stat_headers_derivedOk env r _ _
    · rw [if_neg hreg] at hok
      exact Except.noConfusion hok
  · intro path st hsrc
    rw [pre_call_file_precomputed env fs r path st hsrc] at hok
    by_cases hreg : S_ISREG st.st_mode
    · rw [if_pos hreg] at hok
      cases hok
      rfl
    · rw [if_neg hreg] at hok
      exact Except.noConfusion hok

/-- C3 amended witness: for the concrete bytes response the derived
content-length is the content length and for the precomputed-stat file
response the hook returns the response unchanged. -/
theorem C3_amended_identity_headers_witness :
    lookupHeader (set_stat_headers trivEnv respBytesSmall 2
      (7 : Rat)).headers ("content-length") = some ("2") ∧
    lookupHeader (set_stat_headers trivEnv respBytesSmall 2
      (7 : Rat)).headers ("etag") = some ("\"HMT-2\"") := by
  have h := ((C3_amended_identity_headers trivEnv fsA respBytesSmall
    (set_stat_headers trivEnv respBytesSmall 2 (7 : Rat)) rfl).1 [1, 2]
    (Or.inl rfl))
  constructor
  · exact (h.1 (by decide)).trans (by decide)
  · exact (h.2.2.2.2.1 (by decide)).trans (by decide)

end SRK

namespace SRK

theorem init_headers_other_key (mt : Option String)
    (hs0 : List (String × String)) (k : String)
    (hk : k ≠ "content-type") :
    containsKey (init_headers mt (some hs0)) k =
      containsKey (lowerKeys hs0) k ∧
    lookupHeader (init_headers mt (some hs0)) k =
      lookupHeader (lowerKeys hs0) k := by
  simp only [init_headers]
  cases mt with
  | none => exact ⟨rfl, rfl⟩
  | some ct =>
    dsimp only
    by_cases hck : containsKey (lowerKeys hs0) ("content-type")
    · rw [if_pos hck]
      exact ⟨rfl, rfl⟩
    · rw [if_neg hck]
      exact ⟨containsKey_append_single_ne _ _ _ _ hk,
        lookupHeader_append_single_ne _ _ _ _ hk⟩

/-- C7: for every response constructed with a filename (any content source
variant goes through the same shared constructor), the content-disposition
header is the extended utf-8 form when percent-encoding changes the
filename, the plain quoted form when it does not, and a caller-supplied
content-disposition header is never overwritten. -/
theorem C7_content_disposition_header (env : Collab) (status_code : Nat)
    (hs0 : List (String × String)) (media_type : Option String)
    (background : Option (List String)) (fn : String) (size : Option Nat)
    (mtime : Option Rat) (content_disposition_type : String)
    (source : Source) :
    (containsKey (lowerKeys hs0) ("content-disposition") = false →
      quote fn ≠ fn →
      lookupHeader (baseInit env status_code (some hs0) media_type
          background (some fn) size mtime content_disposition_type
          source).headers ("content-disposition") =
        some (content_disposition_type ++ "; filename*=utf-8''" ++
          quote fn)) ∧
    (containsKey (lowerKeys hs0) ("content-disposition") = false →
      quote fn = fn →
      lookupHeader (baseInit env status_code (some hs0) media_type
          background (some fn) size mtime content_disposition_type
          source).headers ("content-disposition") =
        some (content_disposition_type ++ "; filename=\"" ++ fn ++
          "\"")) ∧
    (∀ w, lookupHeader (lowerKeys hs0) ("content-disposition") = some w →
      lookupHeader (baseInit env status_code (some hs0) media_type
          background (some fn) size mtime content_disposition_type
          source).headers ("content-disposition") = some w) := by
  delta baseInit set_content_disposition_header
  dsimp only
  have hcd : ("content-disposition" : String) ≠ "content-type" := by decide
  refine ⟨?_, ?_, ?_⟩
  · intro habs hq
    rw [if_pos hq]
    apply lookupHeader_setdefault_self
    rw [(init_headers_other_key _ hs0 _ hcd).1]
    exact habs
  · intro habs hq
    rw [if_neg (fun hn => hn hq)]
    apply lookupHeader_setdefault_self
    rw [(init_headers_other_key _ hs0 _ hcd).1]
    exact habs
  · intro w hw
    apply lookupHeader_setdefault_of_some
    rw [(init_headers_other_key _ hs0 _ hcd).2]
    exact hw

/-- C7 witness: `example.png` is unchanged by percent-encoding and yields
the plain quoted form; `a b.txt` is changed (the space encodes to %20) and
yields the extended utf-8 form. -/
theorem C7_content_disposition_header_witness :
    lookupHeader (baseInit trivEnv 200 (some []) none none
        (some ("example.png")) none none ("attachment")
        (Source.bytes [])).headers ("content-disposition") =
      some ("attachment; filename=\"example.png\"") ∧
    lookupHeader (baseInit trivEnv 200 (some []) none none
        (some ("a b.txt")) none none ("attachment")
        (Source.bytes [])).headers ("content-disposition") =
      some ("attachment; filename*=utf-8''a%20b.txt") := by
  constructor
  · have h := (C7_content_disposition_header trivEnv 200 [] none none
      ("example.png") none none ("attachment") (Source.bytes [])).2.1
      (by decide) (by decide)
    exact h.trans (by decide)
  · have h := (C7_content_disposition_header trivEnv 200 [] none none
      ("a b.txt") none none ("attachment") (Source.bytes [])).1
      (by decide) (by decide)
    exact h.trans (by decide)

/-- C1 (code evaluated at the failing input): the file at `f.bin` holds
three bytes, but with chunk threshold 2 the FileResponse's single-read
iterate_content emits only the first two bytes — concatenating the body
frame payloads does not reproduce the file content. -/
theorem C1_fileresponse_truncates_content :
    fsA.read ("f.bin") = [10, 20, 30] ∧
    respFileChunk2.chunk_size = 2 ∧
    (respCall trivEnv fsA scopeGet respFileChunk2).2 = none ∧
    bodyPayloads (respCall trivEnv fsA scopeGet respFileChunk2).1 =
      [10, 20] := by
  refine ⟨by decide, by decide, by decide, by decide⟩

/-- C2 (code evaluated at the failing input): with content [1, 2] and
chunk threshold 2 (content length an exact multiple of the threshold), the
only body frame carries the full chunk with more_body true, and no empty
terminal frame follows — the emitted frame sequence ends with
more_body still true. -/
theorem C2_exact_multiple_no_terminal_frame :
    respBytesChunk2.chunk_size = 2 ∧
    (respCall trivEnv fsA scopeGet respBytesChunk2).2 = none ∧
    (respCall trivEnv fsA scopeGet respBytesChunk2).1.filter isBodyFrame =
      [Event.body [1, 2] true] := by
  refine ⟨by decide, by decide, by decide⟩

/-- C4 (code evaluated at the failing input): even when the scope
advertises the pathsend extension on a non-HEAD request, a FileResponse
emits no pathsend frame at all and streams manually chunked body frames
instead. -/
theorem C4_pathsend_capability_ignored :
    ("http.response.pathsend" ∈ scopePathsend.extensions) ∧
    pyUpper scopePathsend.method ≠ "HEAD" ∧
    (respCall trivEnv fsA scopePathsend respFilePlain).1.filter
      isPathsendFrame = [] ∧
    (respCall trivEnv fsA scopePathsend respFilePlain).1.filter
      isBodyFrame = [Event.body [10, 20, 30] false] := by
  refine ⟨by decide, by decide, by decide, by decide⟩

end SRK
